import Mathlib

/-!
Shallow embedding of the client-side state layer of the Commuters transit app:
the favorite-routes / favorite-stations managers, the subway-status poller in
`App.jsx`, and the `MapDisplay` trip-update projector.  Each definition mirrors
one JavaScript function; asynchronous handlers are embedded as pure state
transformers taking the (already-arrived) server response as an argument.
-/

namespace Commuters

/-- Models the JavaScript expression `x || d` on an optional string field of a
parsed JSON body: a missing field (`none`) and the empty string are both falsy
and yield the default `d`. -/
def jsOrStr (x : Option String) (d : String) : String :=
  match x with
  | some s => if s = "" then d else s
  | none => d

/-- Models `String.prototype.trim()`: strips leading and trailing whitespace. -/
def jsTrim (s : String) : String :=
  ⟨((s.data.dropWhile Char.isWhitespace).reverse.dropWhile Char.isWhitespace).reverse⟩

/-- Models `String.prototype.toUpperCase()` on identifier strings. -/
def jsToUpper (s : String) : String := ⟨s.data.map Char.toUpper⟩

/-- Code-unit-wise lexicographic comparison of two character sequences: the
element order used by `Array.prototype.sort()`'s default string comparator. -/
def jsLeChars : List Char → List Char → Bool
  | [], _ => true
  | _ :: _, [] => false
  | a :: as, b :: bs => if a < b then true else if a = b then jsLeChars as bs else false

/-- The sort order of `Array.prototype.sort()` without comparator, as a
relation on strings. -/
def jsLeRel (a b : String) : Prop := jsLeChars a.data b.data = true

instance : DecidableRel jsLeRel := fun a b => by unfold jsLeRel; infer_instance

/-- Models `Array.prototype.sort()` with no comparator on an array of
identifier strings: a stable sort, ascending in code-unit order.  Embedded as
insertion sort, which is the unique stable ascending sort. -/
def jsSort (l : List String) : List String :=
  List.insertionSort jsLeRel l

/-- The local state slots of `FavoriteRoutesManager` (`useState` hooks):
the favorites list, the text-input value, the loading flag and the three
independent error slots (fetch, add, remove). -/
structure FavRoutesState where
  favoriteRoutes : List String
  newFavoriteRoute : String
  isLoading : Bool
  error : Option String
  addError : Option String
  removeError : Option String
deriving Repr, DecidableEq

/-- Initial `useState` values of `FavoriteRoutesManager`. -/
def initialRoutesState : FavRoutesState :=
  { favoriteRoutes := []
    newFavoriteRoute := ""
    isLoading := false
    error := none
    addError := none
    removeError := none }

/-- Models `setNewFavoriteRoute` driven by the text input's `onChange`. -/
def typeRouteInput (s : FavRoutesState) (v : String) : FavRoutesState :=
  { s with newFavoriteRoute := v }

/-- Possible outcomes of the GET `/api/user/favorites/routes` request made by
`fetchFavorites`, as seen by the continuation: an `ok` response whose parsed
body has a `favorite_routes` field that either is an array of strings (`some`)
or is missing / not an array (`none`); a non-2xx response with HTTP status and
optional parsed `message`; or a thrown error (token failure, network failure,
body not JSON) carrying `err.message`. -/
inductive FetchResponse where
  | ok (favorite_routes : Option (List String))
  | httpError (status : Nat) (message : Option String)
  | thrown (message : String)
deriving Repr, DecidableEq

/-- Embeds `fetchFavorites` from `FavoriteRoutesManager`.  `hasUser` models
the `if (!currentUser) return;` guard.  The returned `Bool` records whether a
network request was issued. -/
def fetchFavorites (hasUser : Bool) (s : FavRoutesState) (resp : FetchResponse) :
    FavRoutesState × Bool :=
  if !hasUser then (s, false)
  else
    -- setIsLoading(true); setError(null); setRemoveError(null)
    let s := { s with isLoading := true, error := none, removeError := none }
    match resp with
    | .ok favorite_routes =>
      -- setFavoriteRoutes(Array.isArray(data.favorite_routes) ? data.favorite_routes.sort() : [])
      ({ s with
          favoriteRoutes := match favorite_routes with
            | some arr => jsSort arr
            | none => []
          isLoading := false }, true)
    | .httpError status message =>
      -- throw new Error(errorData.message || `HTTP error ${status}`); caught below
      ({ s with
          error := some (jsOrStr message ("HTTP error " ++ toString status))
          isLoading := false }, true)
    | .thrown message =>
      -- setError(err.message || "Failed to load favorites.")
      ({ s with
          error := some (jsOrStr (some message) "Failed to load favorites.")
          isLoading := false }, true)

/-- Possible outcomes of the POST `/api/user/favorites/routes` request made by
`handleAddFavorite`: a 2xx response carrying the server's canonical
`data.favorite.route_id`; a 409 with optional `message`; another non-2xx with
HTTP status and optional `message`; or a thrown error carrying `err.message`. -/
inductive AddResponse where
  | created (route_id : String)
  | conflict (message : Option String)
  | httpError (status : Nat) (message : Option String)
  | thrown (message : String)
deriving Repr, DecidableEq

/-- Embeds `handleAddFavorite` from `FavoriteRoutesManager`.  The handler reads
the text-input slot `newFavoriteRoute` of the state.  The returned `Bool`
records whether a network request was issued. -/
def handleAddFavorite (hasUser : Bool) (s : FavRoutesState) (resp : AddResponse) :
    FavRoutesState × Bool :=
  -- if (!currentUser || !newFavoriteRoute.trim()) return
  if !hasUser || (jsTrim s.newFavoriteRoute == "") then (s, false)
  else
    -- setAddError(null); setRemoveError(null)
    let s := { s with addError := none, removeError := none }
    let routeToAdd := jsToUpper (jsTrim s.newFavoriteRoute)
    if s.favoriteRoutes.contains routeToAdd then
      -- setAddError(`Route routeToAdd is already a favorite.`); return
      ({ s with
          addError := some ("Route \x27" ++ routeToAdd ++ "\x27 is already a favorite.") },
        false)
    else
      match resp with
      | .created route_id =>
        -- setFavoriteRoutes(prev => [...prev, data.favorite.route_id].sort());
        -- setNewFavoriteRoute('')
        ({ s with
            favoriteRoutes := jsSort (s.favoriteRoutes ++ [route_id])
            newFavoriteRoute := "" }, true)
      | .conflict message =>
        -- setAddError(data.message || "Route already favorited.")
        ({ s with addError := some (jsOrStr message "Route already favorited.") }, true)
      | .httpError status message =>
        -- throw new Error(data.message || `HTTP error ${status}`); caught:
        -- setAddError(err.message || "Failed to add favorite.")
        ({ s with
            addError := some (jsOrStr message ("HTTP error " ++ toString status)) }, true)
      | .thrown message =>
        ({ s with addError := some (jsOrStr (some message) "Failed to add favorite.") }, true)

/-- Possible outcomes of the DELETE `/api/user/favorites/routes/:id` request
made by `handleRemoveFavorite`: a 2xx response; a non-2xx with HTTP status and
optional parsed `message`; or a thrown error carrying `err.message`. -/
inductive RemoveResponse where
  | ok
  | httpError (status : Nat) (message : Option String)
  | thrown (message : String)
deriving Repr, DecidableEq

/-- Embeds `handleRemoveFavorite` from `FavoriteRoutesManager`.  The returned
`Bool` records whether a network request was issued. -/
def handleRemoveFavorite (hasUser : Bool) (s : FavRoutesState)
    (routeIdToRemove : String) (resp : RemoveResponse) : FavRoutesState × Bool :=
  -- if (!currentUser) return
  if !hasUser then (s, false)
  else
    -- setRemoveError(null); setAddError(null)
    let s := { s with removeError := none, addError := none }
    match resp with
    | .ok =>
      -- setFavoriteRoutes(prev => prev.filter(routeId => routeId !== routeIdToRemove))
      ({ s with
          favoriteRoutes := s.favoriteRoutes.filter (fun routeId => routeId != routeIdToRemove) },
        true)
    | .httpError status message =>
      ({ s with
          removeError := some (jsOrStr message ("HTTP error " ++ toString status)) }, true)
    | .thrown message =>
      ({ s with
          removeError := some (jsOrStr (some message) "Failed to remove favorite.") }, true)

/-- Embeds the `else` branch of the `useEffect` in `FavoriteRoutesManager`
that reacts to the session watcher: when `currentUser` is null the local
collection is cleared and the fetch-error/loading slots reset. -/
def routesOnSessionLost (s : FavRoutesState) : FavRoutesState :=
  { s with favoriteRoutes := [], error := none, isLoading := false }

/-- The local state slots of `FavoriteStationsManager` (`useState` hooks). -/
structure FavStationsState where
  favoriteStations : List String
  newFavoriteStation : String
  isLoading : Bool
  error : Option String
  addError : Option String
  removeError : Option String
deriving Repr, DecidableEq

/-- Initial `useState` values of `FavoriteStationsManager`. -/
def initialStationsState : FavStationsState :=
  { favoriteStations := []
    newFavoriteStation := ""
    isLoading := false
    error := none
    addError := none
    removeError := none }

/-- Embeds `fetchFavoriteStations` from `FavoriteStationsManager`; mirrors
`fetchFavorites` with the `favorite_stations` body field. -/
def fetchFavoriteStations (hasUser : Bool) (s : FavStationsState)
    (resp : FetchResponse) : FavStationsState × Bool :=
  if !hasUser then (s, false)
  else
    -- setIsLoading(true); setError(null); setRemoveError(null)
    let s := { s with isLoading := true, error := none, removeError := none }
    match resp with
    | .ok favorite_stations =>
      -- setFavoriteStations(Array.isArray(data.favorite_stations) ? data.favorite_stations.sort() : [])
      ({ s with
          favoriteStations := match favorite_stations with
            | some arr => jsSort arr
            | none => []
          isLoading := false }, true)
    | .httpError status message =>
      ({ s with
          error := some (jsOrStr message ("HTTP error " ++ toString status))
          isLoading := false }, true)
    | .thrown message =>
      ({ s with
          error := some (jsOrStr (some message) "Failed to load favorite stations.")
          isLoading := false }, true)

/-- Embeds `handleAddFavoriteStation` from `FavoriteStationsManager`.  Unlike
the routes manager, the input is trimmed but the case is preserved. -/
def handleAddFavoriteStation (hasUser : Bool) (s : FavStationsState)
    (resp : AddResponse) : FavStationsState × Bool :=
  -- if (!currentUser || !newFavoriteStation.trim()) return
  if !hasUser || (jsTrim s.newFavoriteStation == "") then (s, false)
  else
    -- setAddError(null); setRemoveError(null)
    let s := { s with addError := none, removeError := none }
    let stationToAdd := jsTrim s.newFavoriteStation
    if s.favoriteStations.contains stationToAdd then
      ({ s with
          addError := some ("Station ID \x27" ++ stationToAdd ++ "\x27 is already a favorite.") },
        false)
    else
      match resp with
      | .created station_id =>
        ({ s with
            favoriteStations := jsSort (s.favoriteStations ++ [station_id])
            newFavoriteStation := "" }, true)
      | .conflict message =>
        ({ s with addError := some (jsOrStr message "Station already favorited.") }, true)
      | .httpError status message =>
        ({ s with
            addError := some (jsOrStr message ("HTTP error " ++ toString status)) }, true)
      | .thrown message =>
        ({ s with
            addError := some (jsOrStr (some message) "Failed to add favorite station.") }, true)

/-- Embeds `handleRemoveFavoriteStation` from `FavoriteStationsManager`. -/
def handleRemoveFavoriteStation (hasUser : Bool) (s : FavStationsState)
    (stationIdToRemove : String) (resp : RemoveResponse) : FavStationsState × Bool :=
  if !hasUser then (s, false)
  else
    -- setRemoveError(null); setAddError(null)
    let s := { s with removeError := none, addError := none }
    match resp with
    | .ok =>
      ({ s with
          favoriteStations :=
            s.favoriteStations.filter (fun stationId => stationId != stationIdToRemove) },
        true)
    | .httpError status message =>
      ({ s with
          removeError := some (jsOrStr message ("HTTP error " ++ toString status)) }, true)
    | .thrown message =>
      ({ s with
          removeError := some (jsOrStr (some message) "Failed to remove favorite station.") },
        true)

/-- Embeds the `else` branch of the session `useEffect` in
`FavoriteStationsManager`. -/
def stationsOnSessionLost (s : FavStationsState) : FavStationsState :=
  { s with favoriteStations := [], error := none, isLoading := false }

/-! ## The subway-status poller (`App.jsx`) and the trip-update data model -/

/-- `first_future_stop` of a trip update, as delivered by
`/api/subway/status`.  Coordinate and name fields may be null/absent. -/
structure FirstFutureStop where
  stop_id : String
  stop_name : Option String
  latitude : Option Int
  longitude : Option Int
  time : Int
deriving Repr, DecidableEq

/-- One record of `trip_updates` in the status payload.  `trip_id` and
`route_id` may be null/absent (both modelled by `none`, the empty string is a
separately-representable falsy value). -/
structure TripUpdate where
  trip_id : Option String
  route_id : Option String
  first_future_stop : Option FirstFutureStop
deriving Repr, DecidableEq

/-- One record of `alerts` in the status payload. -/
structure Alert where
  header : Option String
  description : Option String
deriving Repr, DecidableEq

/-- The parsed body of a successful `/api/subway/status` response, stored
wholesale in the `subwayStatus` state slot. -/
structure SubwayStatusData where
  feed_id_requested : Option String
  feed_timestamp : Option Int
  trip_updates : List TripUpdate
  alerts : List Alert
deriving Repr, DecidableEq

/-- The status-related state slots of `App` (`useState` hooks). -/
structure AppStatusState where
  subwayStatus : Option SubwayStatusData
  isStatusLoading : Bool
  statusError : Option String
deriving Repr, DecidableEq

/-- Outcome of one `/api/subway/status` fetch: a 2xx response with parsed
body, or a thrown error (non-2xx responses and network/parse failures both
raise, carrying the constructed `err.message`). -/
inductive StatusResponse where
  | success (data : SubwayStatusData)
  | failure (message : String)
deriving Repr, DecidableEq

/-- Embeds `fetchSubwayStatus` from `App.jsx` (the polled status fetch): on
success the snapshot is replaced wholesale and the error cleared; on failure
the error is set (`setStatusError(err.message)`) and the snapshot untouched.
The previous error is deliberately not cleared at the start of a poll. -/
def fetchSubwayStatus (s : AppStatusState) (resp : StatusResponse) : AppStatusState :=
  -- setIsStatusLoading(true); errors cleared only on success
  let s := { s with isStatusLoading := true }
  match resp with
  | .success data =>
    -- setSubwayStatus(data); setStatusError(null)
    { s with subwayStatus := some data, statusError := none, isStatusLoading := false }
  | .failure message =>
    -- setStatusError(err.message)
    { s with statusError := some message, isStatusLoading := false }

/-! ## The `MapDisplay` projector -/

/-- JavaScript truthiness of an optional string field: null/absent and the
empty string are falsy. -/
def jsTruthy (x : Option String) : Bool :=
  match x with
  | some s => s != ""
  | none => false

/-- The filter in `MapDisplay`: keep only updates whose `first_future_stop`
object is present (truthy) with `latitude != null` and `longitude != null`. -/
def updatesWithCoords (tripUpdates : List TripUpdate) : List TripUpdate :=
  tripUpdates.filter fun update =>
    match update.first_future_stop with
    | none => false
    | some stop => stop.latitude.isSome && stop.longitude.isSome

/-- The `key` attribute of the marker rendered at position `index` of the
filtered sequence:
`update.trip_id ? tripId-index : marker-(route_id || unknown)-index`. -/
def markerKey (update : TripUpdate) (index : Nat) : String :=
  if jsTruthy update.trip_id then
    (match update.trip_id with | some t => t | none => "") ++ "-" ++ toString index
  else
    "marker-" ++ jsOrStr update.route_id "unknown" ++ "-" ++ toString index

/-- A rendered `Marker` element: its React `key` and its `position` pair,
read off `update.first_future_stop` (present for every filtered update). -/
structure Marker where
  key : String
  position : Option (Int × Int)
deriving Repr, DecidableEq

/-- The marker list rendered by `MapDisplay` for a `tripUpdates` prop:
`(tripUpdates || [])`, filtered to the updates with coordinates, each mapped
with its index in the filtered sequence to a keyed `Marker`. -/
def mapDisplayMarkers (tripUpdates : Option (List TripUpdate)) : List Marker :=
  let l := match tripUpdates with | some l => l | none => []
  (updatesWithCoords l).enum.map fun p =>
    { key := markerKey p.2 p.1
      position := match p.2.first_future_stop with
        | some stop =>
          match stop.latitude, stop.longitude with
          | some la, some lo => some (la, lo)
          | _, _ => none
        | none => none }

/-! ## Order lemmas for the sort comparator -/

theorem jsLeChars_refl (a : List Char) : jsLeChars a a = true := by
  induction a with
  | nil => rfl
  | cons x xs ih => simp [jsLeChars, ih]

theorem jsLeChars_total (a b : List Char) :
    jsLeChars a b = true ∨ jsLeChars b a = true := by
  induction a generalizing b with
  | nil => left; rfl
  | cons x xs ih =>
    cases b with
    | nil => right; rfl
    | cons y ys =>
      rcases lt_trichotomy x y with h | h | h
      · left; simp [jsLeChars, h]
      · subst h
        rcases ih ys with h2 | h2
        · left; simp [jsLeChars, h2]
        · right; simp [jsLeChars, h2]
      · right; simp [jsLeChars, h]

theorem jsLeChars_trans (a b c : List Char) (hab : jsLeChars a b = true)
    (hbc : jsLeChars b c = true) : jsLeChars a c = true := by
  induction a generalizing b c with
  | nil => rfl
  | cons x xs ih =>
    cases b with
    | nil => simp [jsLeChars] at hab
    | cons y ys =>
      cases c with
      | nil => simp [jsLeChars] at hbc
      | cons z zs =>
        simp only [jsLeChars] at hab hbc ⊢
        by_cases hxy : x < y
        · by_cases hyz : y < z
          · simp [lt_trans hxy hyz]
          · simp only [if_pos hxy] at hab
            by_cases hyz2 : y = z
            · subst hyz2; simp [hxy]
            · simp [hyz, hyz2] at hbc
        · by_cases hxy2 : x = y
          · subst hxy2
            simp only [if_neg hxy, if_pos rfl] at hab
            by_cases hxz : x < z
            · simp [hxz]
            · by_cases hxz2 : x = z
              · subst hxz2
                simp only [if_neg hxz, if_pos rfl] at hbc ⊢
                exact ih ys zs hab hbc
              · simp [hxz, hxz2] at hbc
          · simp [hxy, hxy2] at hab

theorem jsLeChars_antisymm (a b : List Char) (hab : jsLeChars a b = true)
    (hba : jsLeChars b a = true) : a = b := by
  induction a generalizing b with
  | nil =>
    cases b with
    | nil => rfl
    | cons y ys => simp [jsLeChars] at hba
  | cons x xs ih =>
    cases b with
    | nil => simp [jsLeChars] at hab
    | cons y ys =>
      simp only [jsLeChars] at hab hba
      by_cases hxy : x < y
      · simp [lt_asymm hxy, (ne_of_lt hxy).symm] at hba
      · by_cases hxy2 : x = y
        · subst hxy2
          simp only [if_neg hxy, if_pos rfl] at hab hba
          rw [ih ys hab hba]
        · simp [hxy, hxy2] at hab

instance : IsTotal String jsLeRel :=
  ⟨fun a b => jsLeChars_total a.data b.data⟩

instance : IsTrans String jsLeRel :=
  ⟨fun a b c => jsLeChars_trans a.data b.data c.data⟩

theorem jsLeRel_antisymm {a b : String} (hab : jsLeRel a b) (hba : jsLeRel b a) :
    a = b := by
  cases a; cases b
  exact congrArg String.mk (jsLeChars_antisymm _ _ hab hba)

theorem jsSort_sorted (l : List String) : List.Sorted jsLeRel (jsSort l) :=
  List.sorted_insertionSort jsLeRel l

theorem jsSort_perm (l : List String) : List.Perm (jsSort l) l :=
  List.perm_insertionSort jsLeRel l

theorem jsSort_pair (x y : String) :
    jsSort [x, y] = if jsLeRel x y then [x, y] else [y, x] := by
  simp [jsSort, List.insertionSort, List.orderedInsert]

theorem jsSort_single (x : String) : jsSort [x] = [x] := rfl

/-! ## Claims -/

/-- Test scenario step used by claim C1: one confirmed add of `input` to a
routes store — type the input, run `handleAddFavorite` with a signed-in user
and the server confirming with the canonical (normalized) id it stored. -/
def addRouteConfirmed (s : FavRoutesState) (input : String) : FavRoutesState :=
  (handleAddFavorite true (typeRouteInput s input)
    (.created (jsToUpper (jsTrim input)))).1

/-- C1: for distinct identifiers `a`, `b` added to an empty favorites store
(each add confirmed by the server), the result is the duplicate-free set
containing exactly the two normalized ids, in ascending order, independent of
insertion order; moreover the collection is re-sorted after every fetch and
after every successful add. -/
theorem add_two_distinct_routes_sorted_set (a b : String)
    (ha : jsTrim a ≠ "") (hb : jsTrim b ≠ "")
    (hab : jsToUpper (jsTrim a) ≠ jsToUpper (jsTrim b)) :
    (addRouteConfirmed (addRouteConfirmed initialRoutesState a) b).favoriteRoutes
        = (addRouteConfirmed (addRouteConfirmed initialRoutesState b) a).favoriteRoutes
      ∧ List.Sorted jsLeRel
          (addRouteConfirmed (addRouteConfirmed initialRoutesState a) b).favoriteRoutes
      ∧ (addRouteConfirmed (addRouteConfirmed initialRoutesState a) b).favoriteRoutes.Nodup
      ∧ (∀ x, x ∈ (addRouteConfirmed (addRouteConfirmed initialRoutesState a) b).favoriteRoutes
          ↔ x = jsToUpper (jsTrim a) ∨ x = jsToUpper (jsTrim b))
      ∧ (∀ s arr,
          List.Sorted jsLeRel ((fetchFavorites true s (.ok (some arr))).1.favoriteRoutes))
      ∧ (∀ s rid, (handleAddFavorite true s (.created rid)).2 = true →
          List.Sorted jsLeRel ((handleAddFavorite true s (.created rid)).1.favoriteRoutes)) := by
  have hab' := Ne.symm hab
  have h1 : (addRouteConfirmed (addRouteConfirmed initialRoutesState a) b).favoriteRoutes
      = jsSort [jsToUpper (jsTrim a), jsToUpper (jsTrim b)] := by
    simp [addRouteConfirmed, handleAddFavorite, typeRouteInput, initialRoutesState,
      ha, hb, hab', jsSort_single]
  have h2 : (addRouteConfirmed (addRouteConfirmed initialRoutesState b) a).favoriteRoutes
      = jsSort [jsToUpper (jsTrim b), jsToUpper (jsTrim a)] := by
    simp [addRouteConfirmed, handleAddFavorite, typeRouteInput, initialRoutesState,
      ha, hb, hab, jsSort_single]
  have hswap : jsSort [jsToUpper (jsTrim a), jsToUpper (jsTrim b)]
      = jsSort [jsToUpper (jsTrim b), jsToUpper (jsTrim a)] := by
    rw [jsSort_pair, jsSort_pair]
    rcases jsLeChars_total (jsToUpper (jsTrim a)).data (jsToUpper (jsTrim b)).data with hx | hx
    · have hxy : jsLeRel (jsToUpper (jsTrim a)) (jsToUpper (jsTrim b)) := hx
      have hnyx : ¬ jsLeRel (jsToUpper (jsTrim b)) (jsToUpper (jsTrim a)) :=
        fun hyx => hab (jsLeRel_antisymm hxy hyx)
      rw [if_pos hxy, if_neg hnyx]
    · have hyx : jsLeRel (jsToUpper (jsTrim b)) (jsToUpper (jsTrim a)) := hx
      have hnxy : ¬ jsLeRel (jsToUpper (jsTrim a)) (jsToUpper (jsTrim b)) :=
        fun hxy => hab (jsLeRel_antisymm hxy hyx)
      rw [if_neg hnxy, if_pos hyx]
  refine ⟨by rw [h1, h2, hswap], ?_, ?_, ?_, ?_, ?_⟩
  · rw [h1]; exact jsSort_sorted _
  · rw [h1]
    exact ((jsSort_perm _).nodup_iff).mpr (by simp [hab])
  · intro x
    rw [h1, (jsSort_perm _).mem_iff]
    simp
  · intro s arr
    simp only [fetchFavorites]
    simpa using jsSort_sorted arr
  · intro s rid h
    by_cases hg : jsTrim s.newFavoriteRoute = ""
    · simp [handleAddFavorite, hg] at h
    · by_cases hc : jsToUpper (jsTrim s.newFavoriteRoute) ∈ s.favoriteRoutes
      · simp [handleAddFavorite, hg, hc] at h
      · simpa [handleAddFavorite, hg, hc] using jsSort_sorted (s.favoriteRoutes ++ [rid])

/-- Witness for C1 at `a = " a"`, `b = "B "`: hypotheses hold and the
resulting collection is the sorted pair (its explicit value checked in the
membership part at `x = "A"`). -/
theorem add_two_distinct_routes_sorted_set_witness :
    (jsTrim " a" ≠ "" ∧ jsTrim "B " ≠ ""
        ∧ jsToUpper (jsTrim " a") ≠ jsToUpper (jsTrim "B "))
      ∧ (addRouteConfirmed (addRouteConfirmed initialRoutesState " a") "B ").favoriteRoutes
          = (addRouteConfirmed (addRouteConfirmed initialRoutesState "B ") " a").favoriteRoutes
      ∧ (addRouteConfirmed (addRouteConfirmed initialRoutesState " a") "B ").favoriteRoutes
          = ["A", "B"] :=
  ⟨⟨by decide, by decide, by decide⟩,
    (add_two_distinct_routes_sorted_set " a" "B " (by decide) (by decide) (by decide)).1,
    by decide⟩

/-- C2: a server 409 on add leaves the local favorites set unchanged and
populates only the add-error slot (server message, or the default duplicate
message); the fetch-error slot is not written.  Stated for the routes manager
and the stations manager. -/
theorem add_conflict_sets_only_add_error
    (s : FavRoutesState) (t : FavStationsState) (message : Option String)
    (hr1 : jsTrim s.newFavoriteRoute ≠ "")
    (hr2 : jsToUpper (jsTrim s.newFavoriteRoute) ∉ s.favoriteRoutes)
    (ht1 : jsTrim t.newFavoriteStation ≠ "")
    (ht2 : jsTrim t.newFavoriteStation ∉ t.favoriteStations) :
    ((handleAddFavorite true s (.conflict message)).1.favoriteRoutes = s.favoriteRoutes
      ∧ (handleAddFavorite true s (.conflict message)).1.addError
          = some (jsOrStr message "Route already favorited.")
      ∧ (handleAddFavorite true s (.conflict message)).1.error = s.error
      ∧ (handleAddFavorite true s (.conflict message)).1.isLoading = s.isLoading)
    ∧ ((handleAddFavoriteStation true t (.conflict message)).1.favoriteStations
          = t.favoriteStations
      ∧ (handleAddFavoriteStation true t (.conflict message)).1.addError
          = some (jsOrStr message "Station already favorited.")
      ∧ (handleAddFavoriteStation true t (.conflict message)).1.error = t.error
      ∧ (handleAddFavoriteStation true t (.conflict message)).1.isLoading = t.isLoading) := by
  constructor
  · simp [handleAddFavorite, hr1, hr2]
  · simp [handleAddFavoriteStation, ht1, ht2]

/-- Witness for C2 at a concrete state holding favorite route "A" /
station "101" while "B" / "202" is being added. -/
theorem add_conflict_sets_only_add_error_witness :
    (jsTrim "B" ≠ ""
      ∧ jsToUpper (jsTrim "B") ∉ ({ initialRoutesState with
            favoriteRoutes := ["A"], newFavoriteRoute := "B" } : FavRoutesState).favoriteRoutes
      ∧ jsTrim "202" ≠ ""
      ∧ jsTrim "202" ∉ ({ initialStationsState with
            favoriteStations := ["101"], newFavoriteStation := "202" } : FavStationsState).favoriteStations)
    ∧ (handleAddFavorite true
          { initialRoutesState with favoriteRoutes := ["A"], newFavoriteRoute := "B" }
          (.conflict (some "Route already favorited."))).1.favoriteRoutes = ["A"]
    ∧ (handleAddFavorite true
          { initialRoutesState with favoriteRoutes := ["A"], newFavoriteRoute := "B" }
          (.conflict (some "Route already favorited."))).1.error = none :=
  ⟨⟨by decide, by decide, by decide, by decide⟩,
    ((add_conflict_sets_only_add_error
        { initialRoutesState with favoriteRoutes := ["A"], newFavoriteRoute := "B" }
        { initialStationsState with favoriteStations := ["101"], newFavoriteStation := "202" }
        (some "Route already favorited.")
        (by decide) (by decide) (by decide) (by decide)).1).1,
    by decide⟩

/-- C3: remove is remote-first and pessimistic: with a signed-in user the
DELETE request is always issued; the id is dropped from the local set exactly
when the server confirms (`response.ok`); on a non-2xx or thrown failure the
set is unchanged and the removal-specific error slot is populated while the
fetch-error slot is untouched.  Stated for both managers. -/
theorem remove_is_remote_first (s : FavRoutesState) (t : FavStationsState) (rid : String) :
    ((handleRemoveFavorite true s rid .ok).2 = true
      ∧ (handleRemoveFavorite true s rid .ok).1.favoriteRoutes
          = s.favoriteRoutes.filter (fun routeId => routeId != rid)
      ∧ (∀ status message,
            (handleRemoveFavorite true s rid (.httpError status message)).2 = true
          ∧ (handleRemoveFavorite true s rid (.httpError status message)).1.favoriteRoutes
              = s.favoriteRoutes
          ∧ (handleRemoveFavorite true s rid (.httpError status message)).1.removeError
              = some (jsOrStr message ("HTTP error " ++ toString status))
          ∧ (handleRemoveFavorite true s rid (.httpError status message)).1.error = s.error)
      ∧ (∀ message,
            (handleRemoveFavorite true s rid (.thrown message)).1.favoriteRoutes
              = s.favoriteRoutes
          ∧ (handleRemoveFavorite true s rid (.thrown message)).1.removeError
              = some (jsOrStr (some message) "Failed to remove favorite.")
          ∧ (handleRemoveFavorite true s rid (.thrown message)).1.error = s.error))
    ∧ ((handleRemoveFavoriteStation true t rid .ok).2 = true
      ∧ (handleRemoveFavoriteStation true t rid .ok).1.favoriteStations
          = t.favoriteStations.filter (fun stationId => stationId != rid)
      ∧ (∀ status message,
            (handleRemoveFavoriteStation true t rid (.httpError status message)).1.favoriteStations
              = t.favoriteStations
          ∧ (handleRemoveFavoriteStation true t rid (.httpError status message)).1.removeError
              = some (jsOrStr message ("HTTP error " ++ toString status))
          ∧ (handleRemoveFavoriteStation true t rid (.httpError status message)).1.error = t.error)
      ∧ (∀ message,
            (handleRemoveFavoriteStation true t rid (.thrown message)).1.favoriteStations
              = t.favoriteStations
          ∧ (handleRemoveFavoriteStation true t rid (.thrown message)).1.removeError
              = some (jsOrStr (some message) "Failed to remove favorite station.")
          ∧ (handleRemoveFavoriteStation true t rid (.thrown message)).1.error = t.error)) := by
  refine ⟨⟨rfl, rfl, fun status message => ⟨rfl, rfl, rfl, rfl⟩, fun message => ⟨rfl, rfl, rfl⟩⟩,
    rfl, rfl, fun status message => ⟨rfl, rfl, rfl⟩, fun message => ⟨rfl, rfl, rfl⟩⟩

/-- C4: adding an id whose normalized form (trimmed, and upper-cased for
routes; trimmed only for stations) is already a local member sets the local
duplicate-condition error, issues no network request (`false` flag: the
response argument is never consulted), and leaves the set unmodified.
Stated for both managers as a full-state equation. -/
theorem add_duplicate_fails_fast
    (s : FavRoutesState) (t : FavStationsState) (resp resp' : AddResponse)
    (hr1 : jsTrim s.newFavoriteRoute ≠ "")
    (hr2 : jsToUpper (jsTrim s.newFavoriteRoute) ∈ s.favoriteRoutes)
    (ht1 : jsTrim t.newFavoriteStation ≠ "")
    (ht2 : jsTrim t.newFavoriteStation ∈ t.favoriteStations) :
    handleAddFavorite true s resp
        = ({ s with
              addError := some ("Route \x27" ++ jsToUpper (jsTrim s.newFavoriteRoute)
                ++ "\x27 is already a favorite.")
              removeError := none }, false)
    ∧ handleAddFavorite true s resp = handleAddFavorite true s resp'
    ∧ handleAddFavoriteStation true t resp
        = ({ t with
              addError := some ("Station ID \x27" ++ jsTrim t.newFavoriteStation
                ++ "\x27 is already a favorite.")
              removeError := none }, false)
    ∧ handleAddFavoriteStation true t resp = handleAddFavoriteStation true t resp' := by
  refine ⟨?_, ?_, ?_, ?_⟩
  · simp [handleAddFavorite, hr1, hr2]
  · simp [handleAddFavorite, hr1, hr2]
  · simp [handleAddFavoriteStation, ht1, ht2]
  · simp [handleAddFavoriteStation, ht1, ht2]

/-- Witness for C4: adding "a" (normalizing to the already-present "A") with
an arbitrary pair of responses. -/
theorem add_duplicate_fails_fast_witness :
    (jsTrim "a" ≠ ""
      ∧ jsToUpper (jsTrim "a") ∈ ({ initialRoutesState with
            favoriteRoutes := ["A"], newFavoriteRoute := "a" } : FavRoutesState).favoriteRoutes
      ∧ jsTrim "101" ≠ ""
      ∧ jsTrim "101" ∈ ({ initialStationsState with
            favoriteStations := ["101"], newFavoriteStation := "101" } : FavStationsState).favoriteStations)
    ∧ (handleAddFavorite true
        { initialRoutesState with favoriteRoutes := ["A"], newFavoriteRoute := "a" }
        (.created "A")).2 = false
    ∧ (handleAddFavorite true
        { initialRoutesState with favoriteRoutes := ["A"], newFavoriteRoute := "a" }
        (.created "A")).1.favoriteRoutes = ["A"] :=
  ⟨⟨by decide, by decide, by decide, by decide⟩, by
    have h := (add_duplicate_fails_fast
      { initialRoutesState with favoriteRoutes := ["A"], newFavoriteRoute := "a" }
      { initialStationsState with favoriteStations := ["101"], newFavoriteStation := "101" }
      (.created "A") (.thrown "network down")
      (by decide) (by decide) (by decide) (by decide)).1
    rw [h], by
    have h := (add_duplicate_fails_fast
      { initialRoutesState with favoriteRoutes := ["A"], newFavoriteRoute := "a" }
      { initialStationsState with favoriteStations := ["101"], newFavoriteStation := "101" }
      (.created "A") (.thrown "network down")
      (by decide) (by decide) (by decide) (by decide)).1
    rw [h]⟩

/-- C5: a successful status poll replaces the stored snapshot wholesale and
clears the status error; a failed poll sets the status error and leaves the
previously stored snapshot untouched (never cleared). -/
theorem status_poll_stale_but_present :
    (∀ s data, fetchSubwayStatus s (.success data)
        = { subwayStatus := some data, isStatusLoading := false, statusError := none })
    ∧ (∀ s message, fetchSubwayStatus s (.failure message)
        = { s with statusError := some message, isStatusLoading := false }) :=
  ⟨fun _ _ => rfl, fun _ _ => rfl⟩

/-- C9: when the session watcher reports no user, each favorites manager
clears its collection to the empty list and resets its fetch-error and
loading slots; and the list fetch never fires (no request, state unchanged)
while no session exists. -/
theorem session_loss_discards_favorites :
    (∀ s : FavRoutesState, (routesOnSessionLost s).favoriteRoutes = []
        ∧ (routesOnSessionLost s).error = none
        ∧ (routesOnSessionLost s).isLoading = false)
    ∧ (∀ (s : FavRoutesState) (resp : FetchResponse), fetchFavorites false s resp = (s, false))
    ∧ (∀ t : FavStationsState, (stationsOnSessionLost t).favoriteStations = []
        ∧ (stationsOnSessionLost t).error = none
        ∧ (stationsOnSessionLost t).isLoading = false)
    ∧ (∀ (t : FavStationsState) (resp : FetchResponse),
        fetchFavoriteStations false t resp = (t, false)) :=
  ⟨fun _ => ⟨rfl, rfl, rfl⟩, fun _ _ => rfl,
    fun _ => ⟨rfl, rfl, rfl⟩, fun _ _ => rfl⟩

/-- C10: a 2xx list fetch whose body's `favorite_routes` /
`favorite_stations` field is not an array yields exactly the state of a
successful fetch of an empty list: the local set becomes `[]` and no error
slot is set. -/
theorem fetch_non_array_treated_as_empty :
    (∀ s : FavRoutesState,
        fetchFavorites true s (.ok none) = fetchFavorites true s (.ok (some []))
      ∧ (fetchFavorites true s (.ok none)).1.favoriteRoutes = []
      ∧ (fetchFavorites true s (.ok none)).1.error = none
      ∧ (fetchFavorites true s (.ok none)).1.removeError = none
      ∧ (fetchFavorites true s (.ok none)).1.addError = s.addError)
    ∧ (∀ t : FavStationsState,
        fetchFavoriteStations true t (.ok none) = fetchFavoriteStations true t (.ok (some []))
      ∧ (fetchFavoriteStations true t (.ok none)).1.favoriteStations = []
      ∧ (fetchFavoriteStations true t (.ok none)).1.error = none
      ∧ (fetchFavoriteStations true t (.ok none)).1.removeError = none
      ∧ (fetchFavoriteStations true t (.ok none)).1.addError = t.addError) :=
  ⟨fun _ => ⟨rfl, rfl, rfl, rfl, rfl⟩, fun _ => ⟨rfl, rfl, rfl, rfl, rfl⟩⟩

/-- A routes-manager state in which a previous remove has failed and its
message is still displayed, while route "A" is a favorite and the input box
holds "A". -/
def stateAfterFailedRemove : FavRoutesState :=
  { initialRoutesState with
      favoriteRoutes := ["A"]
      newFavoriteRoute := "A"
      removeError := some "Failed to remove favorite." }

/-- Counterexample to C8 as stated: `handleAddFavorite` writes (clears) the
remove-error slot, an error slot not its own — a pending remove-failure
message is wiped by a subsequent add. -/
theorem error_slots_not_independent :
    stateAfterFailedRemove.removeError = some "Failed to remove favorite."
    ∧ (handleAddFavorite true stateAfterFailedRemove (.created "A")).1.removeError = none := by
  constructor
  · rfl
  · decide

/-- C8 amended: each operation populates (sets to a message) only its own
error slot and never writes the fetch-error slot of the favorites store
except the fetch itself; but add and fetch clear the remove-error slot on
start and remove clears the add-error slot on start, so a prior failure's
message can be cleared (never replaced by a different message) by another
operation. -/
theorem error_slots_slotwise_disciplined :
    (∀ hasUser (s : FavRoutesState) resp,
        (handleAddFavorite hasUser s resp).1.error = s.error
      ∧ ((handleAddFavorite hasUser s resp).1.removeError = none
          ∨ (handleAddFavorite hasUser s resp).1.removeError = s.removeError))
    ∧ (∀ hasUser (s : FavRoutesState) rid resp,
        (handleRemoveFavorite hasUser s rid resp).1.error = s.error
      ∧ ((handleRemoveFavorite hasUser s rid resp).1.addError = none
          ∨ (handleRemoveFavorite hasUser s rid resp).1.addError = s.addError))
    ∧ (∀ hasUser (s : FavRoutesState) resp,
        (fetchFavorites hasUser s resp).1.addError = s.addError
      ∧ ((fetchFavorites hasUser s resp).1.removeError = none
          ∨ (fetchFavorites hasUser s resp).1.removeError = s.removeError)) := by
  refine ⟨?_, ?_, ?_⟩
  · intro hasUser s resp
    cases hasUser
    · simp [handleAddFavorite]
    · by_cases hg : jsTrim s.newFavoriteRoute = ""
      · simp [handleAddFavorite, hg]
      · by_cases hc : jsToUpper (jsTrim s.newFavoriteRoute) ∈ s.favoriteRoutes
        · simp [handleAddFavorite, hg, hc]
        · cases resp <;> simp [handleAddFavorite, hg, hc]
  · intro hasUser s rid resp
    cases hasUser
    · simp [handleRemoveFavorite]
    · cases resp <;> simp [handleRemoveFavorite]
  · intro hasUser s resp
    cases hasUser
    · simp [fetchFavorites]
    · cases resp <;> simp [fetchFavorites]

/-! ## Decimal-representation lemmas for marker keys -/

/-- Numeric value of a decimal digit character. -/
def digitVal (c : Char) : Nat := c.toNat - 48

/-- Left fold reading a decimal digit string into a number, starting from
accumulator `a`. -/
def digitsVal (a : Nat) (l : List Char) : Nat :=
  l.foldl (fun acc c => 10 * acc + digitVal c) a

/-- The accumulator semantics of `Nat.toDigitsCore` in base 10. -/
def reprAcc (a n : Nat) : Nat :=
  if h : n / 10 = 0 then 10 * a + n % 10
  else 10 * reprAcc a (n / 10) + n % 10
decreasing_by exact Nat.div_lt_self (by omega) (by omega)

theorem digitVal_digitChar (m : Nat) (h : m < 10) :
    digitVal (Nat.digitChar m) = m := by
  interval_cases m <;> decide

theorem digitChar_isDigit (m : Nat) (h : m < 10) :
    (Nat.digitChar m).isDigit = true := by
  interval_cases m <;> decide

theorem toDigitsCore_digitsVal (f : Nat) :
    ∀ n a (ds : List Char), n < f →
      digitsVal a (Nat.toDigitsCore 10 f n ds) = digitsVal (reprAcc a n) ds := by
  induction f with
  | zero => intro n a ds h; omega
  | succ f ih =>
    intro n a ds h
    by_cases h0 : n / 10 = 0
    · simp only [Nat.toDigitsCore, h0, if_true]
      rw [reprAcc, dif_pos h0]
      simp [digitsVal, digitVal_digitChar (n % 10) (Nat.mod_lt n (by omega))]
    · have hn10 : n / 10 < f := by
        have h1 : n / 10 < n := Nat.div_lt_self (by omega) (by omega)
        omega
      simp only [Nat.toDigitsCore, h0, if_false]
      rw [ih (n / 10) a (Nat.digitChar (n % 10) :: ds) hn10]
      conv_rhs => rw [reprAcc, dif_neg h0]
      simp [digitsVal, digitVal_digitChar (n % 10) (Nat.mod_lt n (by omega))]

theorem reprAcc_zero (n : Nat) : reprAcc 0 n = n := by
  induction n using Nat.strong_induction_on with
  | _ n ih =>
    by_cases h0 : n / 10 = 0
    · rw [reprAcc, dif_pos h0]
      omega
    · rw [reprAcc, dif_neg h0]
      rw [ih (n / 10) (Nat.div_lt_self (by omega) (by omega))]
      omega

theorem digitsVal_repr (n : Nat) : digitsVal 0 (Nat.repr n).data = n := by
  show digitsVal 0 (Nat.toDigits 10 n).asString.data = n
  rw [show (Nat.toDigits 10 n).asString.data = Nat.toDigits 10 n from rfl]
  unfold Nat.toDigits
  rw [toDigitsCore_digitsVal (n + 1) n 0 [] (Nat.lt_succ_self n)]
  simp [digitsVal, reprAcc_zero]

theorem nat_repr_inj {m n : Nat} (h : Nat.repr m = Nat.repr n) : m = n := by
  have hm := digitsVal_repr m
  have hn := digitsVal_repr n
  rw [h] at hm
  omega

theorem toDigitsCore_isDigit (f : Nat) :
    ∀ n (ds : List Char), (∀ c ∈ ds, c.isDigit = true) →
      ∀ c ∈ Nat.toDigitsCore 10 f n ds, c.isDigit = true := by
  induction f with
  | zero => intro n ds hds; exact hds
  | succ f ih =>
    intro n ds hds c hc
    by_cases h0 : n / 10 = 0
    · simp only [Nat.toDigitsCore, h0, if_true] at hc
      rcases List.mem_cons.mp hc with h | h
      · subst h; exact digitChar_isDigit _ (Nat.mod_lt n (by omega))
      · exact hds c h
    · simp only [Nat.toDigitsCore, h0, if_false] at hc
      refine ih (n / 10) (Nat.digitChar (n % 10) :: ds) ?_ c ?_
      · intro d hd
        rcases List.mem_cons.mp hd with h | h
        · subst h; exact digitChar_isDigit _ (Nat.mod_lt n (by omega))
        · exact hds d h
      · exact hc

theorem repr_isDigit (n : Nat) : ∀ c ∈ (Nat.repr n).data, c.isDigit = true := by
  intro c hc
  exact toDigitsCore_isDigit (n + 1) n [] (by simp) c hc

theorem takeWhile_append_stop (q : Char → Bool) (l₁ l₂ : List Char) (x : Char)
    (h1 : ∀ c ∈ l₁, q c = true) (hx : q x = false) :
    (l₁ ++ x :: l₂).takeWhile q = l₁ := by
  induction l₁ with
  | nil => simp [List.takeWhile, hx]
  | cons a as ih =>
    have ha : q a = true := h1 a (by simp)
    simp only [List.cons_append, List.takeWhile_cons, ha, if_true]
    rw [ih (fun c hc => h1 c (by simp [hc]))]

/-- Every marker key ends in a dash followed by the decimal rendering of the
item's index in the filtered sequence. -/
theorem markerKey_data (u : TripUpdate) (i : Nat) :
    ∃ p : List Char, (markerKey u i).data = p ++ '-' :: (Nat.repr i).data := by
  unfold markerKey
  by_cases h : jsTruthy u.trip_id = true
  · refine ⟨(match u.trip_id with | some t => t | none => "").data, ?_⟩
    simp [h, String.data_append]
    rfl
  · refine ⟨("marker-" ++ jsOrStr u.route_id "unknown").data, ?_⟩
    simp [h, String.data_append]
    rfl

/-- A marker key determines the index of its item: the digit run after the
final dash reads back as the index. -/
theorem markerKey_index_inj (u v : TripUpdate) (i j : Nat)
    (h : markerKey u i = markerKey v j) : i = j := by
  obtain ⟨p, hp⟩ := markerKey_data u i
  obtain ⟨q, hq⟩ := markerKey_data v j
  have hdata : (markerKey u i).data = (markerKey v j).data := by rw [h]
  rw [hp, hq] at hdata
  have hrev : (Nat.repr i).data.reverse ++ '-' :: p.reverse
      = (Nat.repr j).data.reverse ++ '-' :: q.reverse := by
    have := congrArg List.reverse hdata
    simpa using this
  have hih : ∀ c ∈ (Nat.repr i).data.reverse, c.isDigit = true := by
    intro c hc; exact repr_isDigit i c (List.mem_reverse.mp hc)
  have hjh : ∀ c ∈ (Nat.repr j).data.reverse, c.isDigit = true := by
    intro c hc; exact repr_isDigit j c (List.mem_reverse.mp hc)
  have hdash : ('-' : Char).isDigit = false := by decide
  have hti := takeWhile_append_stop Char.isDigit (Nat.repr i).data.reverse p.reverse '-' hih hdash
  have htj := takeWhile_append_stop Char.isDigit (Nat.repr j).data.reverse q.reverse '-' hjh hdash
  rw [hrev] at hti
  rw [htj] at hti
  have : (Nat.repr i).data = (Nat.repr j).data := by
    have := congrArg List.reverse hti
    simpa using this.symm
  exact nat_repr_inj (by
    cases hh : Nat.repr i
    cases hh2 : Nat.repr j
    simp_all)

/-- The first sample trip update of C6: all coordinates present. -/
def tripT1 : TripUpdate :=
  { trip_id := some "T1"
    route_id := some "L"
    first_future_stop := some
      { stop_id := "S1"
        stop_name := some "First Av"
        latitude := some 1
        longitude := some 2
        time := 1700000000 } }

/-- The second sample trip update of C6: no first future stop. -/
def tripT2 : TripUpdate :=
  { trip_id := some "T2", route_id := some "L", first_future_stop := none }

/-- The third sample trip update of C6: stop present but null latitude. -/
def tripT3 : TripUpdate :=
  { trip_id := some "T3"
    route_id := some "L"
    first_future_stop := some
      { stop_id := "S3"
        stop_name := none
        latitude := none
        longitude := some 2
        time := 1700000001 } }

/-- C6: the projector renders one marker exactly per update whose
`first_future_stop` is present with both coordinates non-null; on the
three-element sample input exactly one marker — for `T1` — is produced. -/
theorem map_projector_filters_on_coords :
    (∀ (l : List TripUpdate) (u : TripUpdate),
        u ∈ updatesWithCoords l
          ↔ u ∈ l ∧ (match u.first_future_stop with
              | none => false
              | some stop => stop.latitude.isSome && stop.longitude.isSome) = true)
    ∧ mapDisplayMarkers (some [tripT1, tripT2, tripT3])
        = [{ key := "T1-0", position := some (1, 2) }] := by
  constructor
  · intro l u
    simp [updatesWithCoords, List.mem_filter]
  · decide

/-- C7: the keys of the rendered markers are pairwise distinct for every
trip-update input — the key is the trip id (or the `marker-routeId` fallback)
combined with the item's position in the filtered sequence, and the position
is always recoverable from the key. -/
theorem marker_keys_pairwise_distinct (tripUpdates : Option (List TripUpdate)) :
    ((mapDisplayMarkers tripUpdates).map Marker.key).Nodup := by
  unfold mapDisplayMarkers
  rw [List.map_map]
  set fl := (match tripUpdates with | some l => l | none => []) with hfl
  have hfst : (List.enum (updatesWithCoords fl)).Pairwise (fun p q => p.1 ≠ q.1) := by
    have h := List.nodup_enum_map_fst (updatesWithCoords fl)
    rw [List.Nodup, List.pairwise_map] at h
    exact h
  rw [List.Nodup, List.pairwise_map]
  refine hfst.imp ?_
  intro p q hpq hk
  exact hpq (markerKey_index_inj p.2 q.2 p.1 q.1 hk)

end Commuters
